import Mathlib

/-!
Verification of the unity-input-patcher core against its specification.

The embedding models the Python module `unity_input_patcher.py`:
scalar runtime values (JSON / typetree scalars) become the `Value` type,
Python floats become exact rationals with explicit non-finite markers,
dictionaries become association lists, and fallible functions return
`Except PatchError`.  Per the design notes of the specification (section 9),
record elements are represented as ordered maps of named fields holding
scalar variant values (numeric, string, boolean).
-/

namespace UnityInputPatcher

/-- Scalar runtime value.  Python floats are split into finite values
(modelled exactly as rationals, abstracting binary rounding) and the three
non-finite values `inf`, `-inf`, `nan`, so that `math.isfinite` is a plain
case distinction.  `null` is Python `None`. -/
inductive Value where
  | int (n : ℤ)
  | float (q : ℚ)
  | inf
  | neginf
  | nan
  | bool (b : Bool)
  | str (s : String)
  | null
deriving DecidableEq, Repr

/-- The numeric content a value exposes to the Python `==` operator:
booleans count as 0 and 1, finite floats and ints as their exact value,
non-finite floats and non-numbers expose none. -/
def pyNum : Value → Option ℚ
  | .int n => some (n : ℚ)
  | .float q => some q
  | .bool b => some (if b then 1 else 0)
  | _ => none

/-- Python `==` on scalar values: `nan` equals nothing (itself included),
`inf` and `-inf` equal themselves, numbers and booleans compare by numeric
value (so `True == 1`), strings by content, `None` only to `None`, and any
remaining cross-type pair is unequal. -/
def pyEq (a b : Value) : Bool :=
  match a, b with
  | .str s, .str t => decide (s = t)
  | .null, .null => true
  | .inf, .inf => true
  | .neginf, .neginf => true
  | .nan, _ => false
  | _, .nan => false
  | a, b =>
    match pyNum a, pyNum b with
    | some x, some y => decide (x = y)
    | _, _ => false

/-- `isinstance(v, (int, float)) and not isinstance(v, bool)`:
ints and floats (non-finite ones included) are numeric, booleans are not. -/
def isNumeric : Value → Bool
  | .int _ => true
  | .float _ => true
  | .inf => true
  | .neginf => true
  | .nan => true
  | _ => false

/-- `math.isfinite(float(v))` for a numeric value. -/
def isFiniteNum : Value → Bool
  | .int _ => true
  | .float _ => true
  | _ => false

/-- `float(v)` for a finite numeric value (junk 0 elsewhere; every use is
guarded by `isFiniteNum`).  The int-to-float conversion is modelled as exact. -/
def ratOf : Value → ℚ
  | .int n => (n : ℚ)
  | .float q => q
  | _ => 0

/-- `FLOAT_EPS = 1e-6` from the source, as an exact rational. -/
def FLOAT_EPS : ℚ := 1 / 1000000

/-- `equal` from the source: numeric non-boolean pairs compare as floats
(finite, within `FLOAT_EPS`); everything else falls back to Python `==`. -/
def equal (a b : Value) : Bool :=
  if isNumeric a && isNumeric b then
    isFiniteNum a && isFiniteNum b && decide (|ratOf a - ratOf b| ≤ FLOAT_EPS)
  else
    pyEq a b

/-- `toggle_decision` from the source: move toward `patched` when the live
value tolerantly equals `original`, back toward `original` when it equals
`patched`, otherwise report an unknown state. -/
def toggle_decision (current original patched : Value) :
    Option Value × String :=
  if equal current original then (some patched, "applied")
  else if equal current patched then (some original, "reverted")
  else (none, "unknown")

/-- Python `str(v)` on scalars.  Float, inf and nan renderings abstract the
exact Python digit strings; no claim depends on them. -/
def pyStr : Value → String
  | .int n => toString n
  | .float q => toString q
  | .inf => "inf"
  | .neginf => "-inf"
  | .nan => "nan"
  | .bool b => if b then "True" else "False"
  | .str s => s
  | .null => "None"

/-- Python `repr(v)` on scalars, used by the f-string log messages.  String
quoting assumes the content needs no escaping; floats as in `pyStr`. -/
def pyRepr : Value → String
  | .str s => "\x27" ++ s ++ "\x27"
  | v => pyStr v

/-- Decimal digits to a natural number. -/
def digitsToNat (l : List Char) : ℕ :=
  l.foldl (fun a c => a * 10 + (c.toNat - 48)) 0

/-- Python `str.strip()`: drop leading and trailing whitespace.  Defined
structurally over the character list so that it evaluates by kernel
reduction (the library trim on substrings does not). -/
def pyStrip (s : String) : String :=
  ⟨(((s.toList).dropWhile Char.isWhitespace).reverse.dropWhile
      Char.isWhitespace).reverse⟩

/-- Python `int(s)` on a string: optional surrounding whitespace, optional
sign, then a non-empty run of decimal digits.  Underscore separators and
non-ASCII digits are not modelled; no claim depends on them. -/
def parseIntStr (s : String) : Except Unit ℤ :=
  match (pyStrip s).toList with
  | [] => .error ()
  | '+' :: rest =>
    if rest ≠ [] ∧ rest.all Char.isDigit then .ok (digitsToNat rest)
    else .error ()
  | '-' :: rest =>
    if rest ≠ [] ∧ rest.all Char.isDigit then .ok (-(digitsToNat rest : ℤ))
    else .error ()
  | cs =>
    if cs.all Char.isDigit then .ok (digitsToNat cs)
    else .error ()

/-- Python `int(v)` coercion: ints pass through, booleans become 0 or 1,
finite floats truncate toward zero, strings are parsed, and `None` and
non-finite floats raise. -/
def pyInt : Value → Except Unit ℤ
  | .int n => .ok n
  | .bool b => .ok (if b then 1 else 0)
  | .float q => .ok (Int.tdiv q.num (q.den : ℤ))
  | .str s => parseIntStr s
  | _ => .error ()

/-- An axis element of the `m_Axes` collection: a Python dict modelled as an
ordered association list from field name to scalar value (spec section 9:
an ordered map of named fields with scalar variant values). -/
abbrev Axis : Type := List (String × Value)

/-- First-match lookup in a dict (Python dicts have unique keys, so the
first match is the only one). -/
def lookupA : List (String × Value) → String → Option Value
  | [], _ => none
  | (k, v) :: rest, key => if k = key then some v else lookupA rest key

/-- Python `d.get(key, default)`. -/
def getD (d : List (String × Value)) (key : String) (dflt : Value) : Value :=
  (lookupA d key).getD dflt

/-- Python `key in d`. -/
def hasKey (d : List (String × Value)) (key : String) : Bool :=
  (lookupA d key).isSome

/-- Python `d[key] = v`: replace the value at the first occurrence of the
key, or append the binding when the key is absent. -/
def setA : List (String × Value) → String → Value → List (String × Value)
  | [], key, v => [(key, v)]
  | (k, w) :: rest, key, v =>
    if k = key then (k, v) :: rest else (k, w) :: setA rest key v

/-- Python truthiness of an `Optional[str]`: `None` and the empty string
are falsy. -/
def truthy : Option String → Bool
  | none => false
  | some s => !(s = "")

/-- One constructor per raise site of the source module, each carrying the
formatted message.  In Python these are `IndexError` (`indexError`),
`FileNotFoundError` (`targetNotFound`) and `RuntimeError` (all others);
the finer split records which raise fired. -/
inductive PatchError where
  | rootCheckFailed (msg : String)
  | missingKey (msg : String)
  | targetNotFound (msg : String)
  | objNotFound (msg : String)
  | indexError (msg : String)
  | nameMismatch (msg : String)
  | fieldMissing (msg : String)
  | unknownState (msg : String)
  | badPatchFile (msg : String)
  | badToggleList (msg : String)
  | badEntry (msg : String)
  | unsupportedType (msg : String)
  | nonIntegerAxis (msg : String)
  | badAxesFormat (msg : String)
  | mixedModes (msg : String)
deriving DecidableEq, Repr

/-- The change-log line built by `toggle_legacy_axis_field`. -/
def mkLine (axis_index : ℤ) (name : Value) (field : String)
    (cur nw : Value) : String :=
  "axis[" ++ toString axis_index ++ "] " ++ pyRepr name ++ "." ++ field ++
    ": " ++ pyRepr cur ++ " -> " ++ pyRepr nw

/-- The check label built by `toggle_legacy_axis_field`. -/
def mkCheck (axis_name : Option String) (name : Value) : String :=
  if truthy axis_name then "axis_name_ok (" ++ pyRepr name ++ ")"
  else "axis_name_skipped"

/-- `toggle_legacy_axis_field` from the source.  The Python function
mutates the shared `axes` list in place after all checks pass; the
embedding returns the updated list on success, so an error result means
the single in-place assignment was never reached. -/
def toggle_legacy_axis_field (axes : List Axis) (axis_index : ℤ)
    (field : String) (original patched : Value)
    (axis_name : Option String) :
    Except PatchError (List Axis × String × String × String) :=
  if axis_index < 0 ∨ (axes.length : ℤ) ≤ axis_index then
    .error (.indexError ("Axis index out of range: " ++ toString axis_index ++
      " (axes=" ++ toString axes.length ++ ")"))
  else
    let ax := ((axes.get? axis_index.toNat).getD [])
    let name := getD ax "m_Name" (.str "")
    if truthy axis_name = true ∧
        pyEq name (.str ((axis_name).getD "")) = false then
      .error (.nameMismatch ("Axis name mismatch at index " ++
        toString axis_index ++ ": expected " ++
        pyRepr (.str ((axis_name).getD "")) ++ ", found " ++ pyRepr name))
    else if hasKey ax field = false then
      .error (.fieldMissing ("Field " ++ pyRepr (.str field) ++
        " not present on axis[" ++ toString axis_index ++ "] (name=" ++
        pyRepr name ++ ")"))
    else
      let cur := getD ax field .null
      match toggle_decision cur original patched with
      | (none, _) =>
        .error (.unknownState ("Unknown state for axis[" ++
          toString axis_index ++ "] " ++ pyRepr name ++ "." ++ field ++
          ": current=" ++ pyRepr cur ++ ", expected " ++ pyRepr original ++
          " or " ++ pyRepr patched))
      | (some nw, mode) =>
        .ok (axes.set axis_index.toNat (setA ax field nw), mode,
          mkLine axis_index name field cur nw, mkCheck axis_name name)

/-- Rendering of an absolute path (a segment list); the root directory is
the empty list, so `dropLast` is `Path.parent`. -/
def pathStr (p : List String) : String :=
  "/" ++ String.intercalate "/" p

/-- `q` from the source: quote a path for copy-paste. -/
def qp (p : List String) : String := "\x22" ++ pathStr p ++ "\x22"

/-- `verify_root_contains` from the source, parameterised by the
filesystem `(dir / item).exists()` predicate. -/
def verify_root_contains (ex : List String → String → Bool)
    (root : List String) (items : List String) : Except PatchError Unit :=
  let missing := items.filter (fun x => !(ex root x))
  if missing.isEmpty then .ok ()
  else .error (.rootCheckFailed ("Root sanity check failed at " ++ qp root ++
    " (missing: " ++ String.intercalate ", " missing ++ ")"))

/-- The `root_contains` patch field at the granularity the source inspects:
absent (`patch.get` default `[]`), present but not a list (the
`isinstance` test fails), or a list of scalar items. -/
inductive RootContains where
  | absent
  | notList (v : Value)
  | items (xs : List Value)
deriving DecidableEq, Repr

/-- A toggle entry at the granularity the source inspects: either not a
dict, or a dict of scalar fields. -/
inductive TEntry where
  | notDict (v : Value)
  | entry (td : List (String × Value))
deriving DecidableEq, Repr

/-- The `toggle` patch field: absent, present but not a list, or a list of
entries. -/
inductive Toggles where
  | absent
  | notList (v : Value)
  | entries (ts : List TEntry)
deriving DecidableEq, Repr

/-- The patch description (spec section 6 schema) at the granularity the
orchestrator inspects.  The `id` and `name` fields only feed log output
and are omitted. -/
structure Patch where
  root_contains : RootContains
  file : Option Value
  toggle : Toggles
deriving DecidableEq, Repr

/-- The `m_Axes` attribute of the InputManager tree: a list of axis dicts,
a non-list value, or absent. -/
inductive MAxes where
  | axes (l : List Axis)
  | notAList (v : Value)
  | absent
deriving DecidableEq, Repr

/-- A typed object of the loaded container: its `.type.name` and the
typetree read from it, split into the `m_Axes` attribute and the remaining
fields (opaque to the orchestrator and preserved through write-back). -/
structure UObj where
  typeName : String
  mAxes : MAxes
  restTree : List (String × Value)
deriving DecidableEq, Repr

/-- The external world of one run: the filesystem existence predicate
`(dir / item).exists()`, the `(root / rel).is_file()` predicate, and the
external loader producing the object list of the target file. -/
structure World where
  ex : List String → String → Bool
  isFile : List String → String → Bool
  load : List String → String → List UObj

/-- The root-resolution step of `run` (source lines 172-184): a non-empty
`root_contains` list is checked at the given root; on failure the check is
retried once at the strict parent, which is adopted on success. -/
def resolve_game_root (ex : List String → String → Bool)
    (game_root : List String) (rc : RootContains) :
    Except PatchError (List String) :=
  match rc with
  | .items xs =>
    if xs.isEmpty then .ok game_root
    else
      let items := xs.map pyStr
      match verify_root_contains ex game_root items with
      | .ok _ => .ok game_root
      | .error e =>
        let parent := game_root.dropLast
        if parent ≠ game_root then
          match verify_root_contains ex parent items with
          | .ok _ => .ok parent
          | .error e2 => .error e2
        else .error e
  | _ => .ok game_root

/-- The `file` validation step of `run`: a present, string-typed,
non-blank relative path. -/
def patch_rel (patch : Patch) : Except PatchError String :=
  match patch.file with
  | some (.str s) =>
    if pyStrip s = "" then
      .error (.badPatchFile ("patch.json missing required string: " ++
        pyRepr (.str "file")))
    else .ok s
  | _ =>
    .error (.badPatchFile ("patch.json missing required string: " ++
      pyRepr (.str "file")))

/-- `target_file` from the source: the joined path must exist and be a
regular file. -/
def target_file (w : World) (root : List String) (rel : String) :
    Except PatchError Unit :=
  if w.ex root rel = false ∨ w.isFile root rel = false then
    .error (.targetNotFound ("Target file not found: " ++ qp (root ++ [rel])))
  else .ok ()

/-- The `toggle` validation step of `run`: a present, list-typed,
non-empty entry list. -/
def patch_toggles (patch : Patch) : Except PatchError (List TEntry) :=
  match patch.toggle with
  | .entries ts =>
    if ts.isEmpty then
      .error (.badToggleList ("patch.json missing required non-empty list: " ++
        pyRepr (.str "toggle")))
    else .ok ts
  | _ =>
    .error (.badToggleList ("patch.json missing required non-empty list: " ++
      pyRepr (.str "toggle")))

/-- `find_obj` from the source: the first object whose type name matches. -/
def find_obj (objs : List UObj) (type_name : String) :
    Except PatchError UObj :=
  match objs.find? (fun o => o.typeName = type_name) with
  | some o => .ok o
  | none =>
    .error (.objNotFound (type_name ++
      " not found (wrong file / Unity version / not legacy InputManager?)"))

/-- The `m_Axes` extraction step of `run`: the attribute must be a list. -/
def get_axes (o : UObj) : Except PatchError (List Axis) :=
  match o.mAxes with
  | .axes l => .ok l
  | _ => .error (.badAxesFormat "InputManager.m_Axes missing or unexpected format")

/-- The mutable loop state of `run`: the shared axes collection, the
direction seen so far, and the accumulated check and log lines. -/
structure LoopState where
  axes : List Axis
  mode_seen : Option String
  checks : List String
  logs : List String
deriving DecidableEq, Repr

/-- `req` from the source: fetch a required toggle-entry key. -/
def req (td : List (String × Value)) (k : String) :
    Except PatchError Value :=
  match lookupA td k with
  | some v => .ok v
  | none =>
    .error (.missingKey ("Toggle entry missing required key: " ++
      pyRepr (.str k)))

/-- The `axis` coercion of the loop body: `int(req(t, "axis"))` with every
failure (missing key or failed coercion) reported as a non-integer axis. -/
def axis_of (td : List (String × Value)) : Except PatchError ℤ :=
  match lookupA td "axis" with
  | none =>
    .error (.nonIntegerAxis ("Toggle entry has non-integer " ++
      pyRepr (.str "axis") ++ ": " ++ pyRepr .null))
  | some v =>
    match pyInt v with
    | .ok n => .ok n
    | .error _ =>
      .error (.nonIntegerAxis ("Toggle entry has non-integer " ++
        pyRepr (.str "axis") ++ ": " ++ pyRepr v))

/-- The `axis_name` normalisation of the loop body (source line 231):
kept only when string-typed with non-blank strip. -/
def normalize_axis_name (v : Option Value) : Option String :=
  match v with
  | some (.str s) => if pyStrip s = "" then none else some s
  | _ => none

/-- The mixed-direction error message of the source. -/
def mixedMsg : String :=
  "Mixed apply/revert across entries (patch values don\x27t match current file consistently)"

/-- One iteration of the toggle loop of `run` (source lines 216-248):
entry validation, field extraction, the mutator call, the cross-entry
direction check, then accumulation of the check and log lines. -/
def processToggle (st : LoopState) (t : TEntry) :
    Except PatchError LoopState :=
  match t with
  | .notDict v =>
    .error (.badEntry ("Bad toggle entry (not object): " ++ pyRepr v))
  | .entry td =>
    if pyEq (getD td "type" .null) (.str "legacy_axis_field") = false then
      .error (.unsupportedType ("Unsupported toggle type: " ++
        pyRepr (getD td "type" .null)))
    else
      match axis_of td with
      | .error e => .error e
      | .ok axis_index =>
        match req td "field" with
        | .error e => .error e
        | .ok fv =>
          match req td "original" with
          | .error e => .error e
          | .ok original =>
            match req td "patched" with
            | .error e => .error e
            | .ok patched =>
              match toggle_legacy_axis_field st.axes axis_index (pyStr fv)
                  original patched
                  (normalize_axis_name (lookupA td "axis_name")) with
              | .error e => .error e
              | .ok (axes2, mode, line, check) =>
                match st.mode_seen with
                | none =>
                  .ok ⟨axes2, some mode, st.checks ++ [check],
                    st.logs ++ [line]⟩
                | some m =>
                  if m = mode then
                    .ok ⟨axes2, some m, st.checks ++ [check],
                      st.logs ++ [line]⟩
                  else .error (.mixedModes mixedMsg)

/-- The toggle loop of `run`, folding `processToggle` over the entries. -/
def runToggles : LoopState → List TEntry → Except PatchError LoopState
  | st, [] => .ok st
  | st, t :: ts =>
    match processToggle st t with
    | .error e => .error e
    | .ok st2 => runToggles st2 ts

/-- The outcome of a successful run: the adopted root, the relative target
path, the final axes written back into the tree, the untouched remaining
tree fields, the resolved direction, and the per-entry check and log
lines.  Producing this value corresponds to `write_tree` plus
`save_in_place` overwriting the target file. -/
structure RunResult where
  root : List String
  rel : String
  finalAxes : List Axis
  restTree : List (String × Value)
  mode_seen : Option String
  checks : List String
  logs : List String
deriving DecidableEq, Repr

/-- `run` from the source: root resolution, patch validation, object-graph
loading, the toggle loop, then serialisation.  The serialise-and-overwrite
step is the `.ok` constructor at the end: every error path precedes it, so
an error result means the target file was never rewritten. -/
def run (w : World) (game_root : List String) (patch : Patch) :
    Except PatchError RunResult :=
  match resolve_game_root w.ex game_root patch.root_contains with
  | .error e => .error e
  | .ok root =>
    match patch_rel patch with
    | .error e => .error e
    | .ok rel =>
      match target_file w root rel with
      | .error e => .error e
      | .ok _ =>
        match patch_toggles patch with
        | .error e => .error e
        | .ok toggles =>
          match find_obj (w.load root rel) "InputManager" with
          | .error e => .error e
          | .ok im =>
            match get_axes im with
            | .error e => .error e
            | .ok axes =>
              match runToggles ⟨axes, none, [], []⟩ toggles with
              | .error e => .error e
              | .ok st =>
                .ok { root := root, rel := rel, finalAxes := st.axes,
                      restTree := im.restTree, mode_seen := st.mode_seen,
                      checks := st.checks, logs := st.logs }

/-- The tree content written to disk by a run: `some` of the final axes on
success, `none` when the run aborted before `save_in_place`. -/
def written_tree (r : Except PatchError RunResult) : Option (List Axis) :=
  match r with
  | .ok res => some res.finalAxes
  | .error _ => none

/-- The axes collection after one mutator call, the unchanged input when
the call failed (in Python the in-place assignment is only reached after
every check has passed). -/
def mutatedAxes (axes : List Axis) (axis_index : ℤ) (field : String)
    (original patched : Value) (axis_name : Option String) : List Axis :=
  match toggle_legacy_axis_field axes axis_index field original patched
      axis_name with
  | .ok (axes2, _, _, _) => axes2
  | .error _ => axes

/-- Pairs mixing a boolean with an int or a float: exactly the pairs on
which the Python `==` fallback differs from exact (structural) equality. -/
def boolNumMix : Value → Value → Bool
  | .bool _, .int _ => true
  | .bool _, .float _ => true
  | .int _, .bool _ => true
  | .float _, .bool _ => true
  | _, _ => false

/-- Whether a runtime value is integer-typed. -/
def isIntValue : Value → Bool
  | .int _ => true
  | _ => false

/-- A world with one InputManager object holding a single axis, used to
evaluate `run` on concrete patches. -/
def oneAxisWorld : World where
  ex := fun _ _ => true
  isFile := fun _ _ => true
  load := fun _ _ =>
    [{ typeName := "InputManager",
       mAxes := .axes [[("m_Name", .str "H"), ("f", .str "on")]],
       restTree := [] }]

/-- A patch whose single toggle entry carries the string "0" in its
axis field. -/
def strAxisPatch : Patch where
  root_contains := .absent
  file := some (.str "level0")
  toggle := .entries [.entry [("type", .str "legacy_axis_field"),
    ("axis", .str "0"), ("field", .str "f"), ("original", .str "on"),
    ("patched", .str "off")]]

/-- A world with one InputManager object holding three axes, used to
evaluate `run` on a patch with three toggle entries. -/
def threeAxisWorld : World where
  ex := fun _ _ => true
  isFile := fun _ _ => true
  load := fun _ _ =>
    [{ typeName := "InputManager",
       mAxes := .axes [[("a", .str "off")], [("b", .str "up")],
         [("c", .str "on")]],
       restTree := [] }]

/-- A patch with three toggle entries that do not all resolve to the same
direction against `threeAxisWorld`: the first two revert, the third
applies. -/
def mixedPatch : Patch where
  root_contains := .absent
  file := some (.str "level0")
  toggle := .entries
    [.entry [("type", .str "legacy_axis_field"), ("axis", .int 0),
      ("field", .str "a"), ("original", .str "on"), ("patched", .str "off")],
     .entry [("type", .str "legacy_axis_field"), ("axis", .int 1),
      ("field", .str "b"), ("original", .str "down"), ("patched", .str "up")],
     .entry [("type", .str "legacy_axis_field"), ("axis", .int 2),
      ("field", .str "c"), ("original", .str "on"), ("patched", .str "off")]]

/-! ### Basic lemmas about the comparator and the dict operations -/

theorem pyEq_symm (a b : Value) : pyEq a b = pyEq b a := by
  cases a <;> cases b <;> simp [pyEq, pyNum, eq_comm]

theorem equal_symm (a b : Value) : equal a b = equal b a := by
  unfold equal
  cases ha : isNumeric a <;> cases hb : isNumeric b <;>
    simp [ha, hb, pyEq_symm a b] <;>
    (cases isFiniteNum a <;> cases isFiniteNum b <;> simp [abs_sub_comm])

theorem equal_float_iff (x y : ℚ) :
    equal (.float x) (.float y) = true ↔ |x - y| ≤ FLOAT_EPS := by
  simp [equal, isNumeric, isFiniteNum, ratOf]

theorem equal_int_iff (n m : ℤ) :
    equal (.int n) (.int m) = true ↔ |(n : ℚ) - (m : ℚ)| ≤ FLOAT_EPS := by
  simp [equal, isNumeric, isFiniteNum, ratOf]

theorem equal_int_float_iff (n : ℤ) (y : ℚ) :
    equal (.int n) (.float y) = true ↔ |(n : ℚ) - y| ≤ FLOAT_EPS := by
  simp [equal, isNumeric, isFiniteNum, ratOf]

theorem equal_float_int_iff (x : ℚ) (m : ℤ) :
    equal (.float x) (.int m) = true ↔ |x - (m : ℚ)| ≤ FLOAT_EPS := by
  simp [equal, isNumeric, isFiniteNum, ratOf]

theorem equal_eq_false (a b : Value) (h : ¬ equal a b = true) :
    equal a b = false := by
  cases hc : equal a b
  · rfl
  · exact absurd hc h

theorem get?_lt_isSome {α : Type} (l : List α) (n : ℕ) (h : n < l.length) :
    ∃ a, l.get? n = some a := by
  induction l generalizing n with
  | nil => simp at h
  | cons x xs ih =>
    cases n with
    | zero => exact ⟨x, rfl⟩
    | succ m => simpa using ih m (by simpa using h)

theorem mutator_ok_inv (axes : List Axis) (i : ℤ) (field : String)
    (original patched : Value) (axis_name : Option String)
    (axes2 : List Axis) (mode line check : String)
    (h : toggle_legacy_axis_field axes i field original patched axis_name =
      .ok (axes2, mode, line, check)) :
    ∃ ax nw,
      axes.get? i.toNat = some ax ∧
      axes2 = axes.set i.toNat (setA ax field nw) ∧
      check = mkCheck axis_name (getD ax "m_Name" (.str "")) := by
  simp only [toggle_legacy_axis_field] at h
  split at h
  · simp at h
  · rename_i hguard
    push_neg at hguard
    have hlt : i.toNat < axes.length := by omega
    obtain ⟨ax, hax⟩ := get?_lt_isSome axes i.toNat hlt
    rw [hax] at h
    simp only [Option.getD_some] at h
    refine ⟨ax, ?_⟩
    split at h
    · simp at h
    · split at h
      · simp at h
      · split at h
        · simp at h
        · rename_i nw mode' heq
          simp only [Except.ok.injEq, Prod.mk.injEq] at h
          exact ⟨nw, hax, h.1.symm, h.2.2.2.symm⟩

theorem mutator_error_shape (axes : List Axis) (i : ℤ) (field : String)
    (original patched : Value) (axis_name : Option String) (e : PatchError)
    (h : toggle_legacy_axis_field axes i field original patched axis_name =
      .error e) :
    (∃ m, e = .indexError m) ∨ (∃ m, e = .nameMismatch m) ∨
    (∃ m, e = .fieldMissing m) ∨ (∃ m, e = .unknownState m) := by
  simp only [toggle_legacy_axis_field] at h
  split at h
  · simp only [Except.error.injEq] at h
    exact Or.inl ⟨_, h.symm⟩
  · split at h
    · simp only [Except.error.injEq] at h
      exact Or.inr (Or.inl ⟨_, h.symm⟩)
    · split at h
      · simp only [Except.error.injEq] at h
        exact Or.inr (Or.inr (Or.inl ⟨_, h.symm⟩))
      · split at h
        · simp only [Except.error.injEq] at h
          exact Or.inr (Or.inr (Or.inr ⟨_, h.symm⟩))
        · simp at h

theorem mutator_none_no_mismatch (axes : List Axis) (i : ℤ) (field : String)
    (original patched : Value) (e : PatchError)
    (h : toggle_legacy_axis_field axes i field original patched none =
      .error e) :
    ∀ m, e ≠ .nameMismatch m := by
  intro m hm
  subst hm
  simp only [toggle_legacy_axis_field] at h
  split at h
  · simp at h
  · split at h
    · rename_i hcond
      simp [truthy] at hcond
    · split at h
      · simp at h
      · split at h
        · simp at h
        · simp at h

/-! ### Inversion and evaluation lemmas for the toggle loop body -/

theorem axis_of_error_shape (td : List (String × Value)) (e : PatchError)
    (h : axis_of td = .error e) : ∃ m, e = .nonIntegerAxis m := by
  simp only [axis_of] at h
  split at h
  · simp only [Except.error.injEq] at h
    exact ⟨_, h.symm⟩
  · split at h
    · simp at h
    · simp only [Except.error.injEq] at h
      exact ⟨_, h.symm⟩

theorem req_error_shape (td : List (String × Value)) (k : String)
    (e : PatchError) (h : req td k = .error e) : ∃ m, e = .missingKey m := by
  simp only [req] at h
  split at h
  · simp at h
  · simp only [Except.error.injEq] at h
    exact ⟨_, h.symm⟩

theorem processToggle_entry_ok (st : LoopState) (td : List (String × Value))
    (st2 : LoopState)
    (h : processToggle st (.entry td) = .ok st2) :
    ∃ idx fv ov pv axes2 mode line check,
      pyEq (getD td "type" .null) (.str "legacy_axis_field") = true ∧
      axis_of td = .ok idx ∧ req td "field" = .ok fv ∧
      req td "original" = .ok ov ∧ req td "patched" = .ok pv ∧
      toggle_legacy_axis_field st.axes idx (pyStr fv) ov pv
        (normalize_axis_name (lookupA td "axis_name")) =
          .ok (axes2, mode, line, check) ∧
      st2 = ⟨axes2, some mode, st.checks ++ [check], st.logs ++ [line]⟩ ∧
      (st.mode_seen = none ∨ st.mode_seen = some mode) := by
  simp only [processToggle] at h
  split at h
  · simp at h
  · rename_i hty
    have hty2 : pyEq (getD td "type" Value.null)
        (Value.str "legacy_axis_field") = true := by
      cases hc : pyEq (getD td "type" Value.null)
          (Value.str "legacy_axis_field")
      · exact absurd hc hty
      · rfl
    cases hax : axis_of td with
    | error e =>
      simp only [hax] at h
      exact Except.noConfusion h
    | ok idx =>
      simp only [hax] at h
      cases hf : req td "field" with
      | error e =>
      simp only [hf] at h
      exact Except.noConfusion h
      | ok fv =>
        simp only [hf] at h
        cases ho : req td "original" with
        | error e =>
      simp only [ho] at h
      exact Except.noConfusion h
        | ok ov =>
          simp only [ho] at h
          cases hp : req td "patched" with
          | error e =>
      simp only [hp] at h
      exact Except.noConfusion h
          | ok pv =>
            simp only [hp] at h
            cases hmut : toggle_legacy_axis_field st.axes idx (pyStr fv) ov pv
                (normalize_axis_name (lookupA td "axis_name")) with
            | error e =>
      simp only [hmut] at h
      exact Except.noConfusion h
            | ok r =>
              obtain ⟨axes2, mode, line, check⟩ := r
              simp only [hmut] at h
              cases hms : st.mode_seen with
              | none =>
                simp only [hms, Except.ok.injEq] at h
                exact ⟨idx, fv, ov, pv, axes2, mode, line, check, hty2, rfl,
                  rfl, rfl, rfl, hmut, h.symm, Or.inl rfl⟩
              | some m =>
                simp only [hms] at h
                by_cases hmm : m = mode
                · rw [if_pos hmm] at h
                  simp only [Except.ok.injEq] at h
                  subst hmm
                  exact ⟨idx, fv, ov, pv, axes2, m, line, check, hty2, rfl,
                    rfl, rfl, rfl, hmut, h.symm, Or.inr rfl⟩
                · rw [if_neg hmm] at h
                  exact Except.noConfusion h

theorem processToggle_entry_error (st : LoopState)
    (td : List (String × Value)) (e : PatchError)
    (h : processToggle st (.entry td) = .error e) :
    (∃ m, e = .unsupportedType m) ∨ (axis_of td = .error e) ∨
    (∃ m, e = .missingKey m) ∨ e = .mixedModes mixedMsg ∨
    (∃ idx fv ov pv, axis_of td = .ok idx ∧ req td "field" = .ok fv ∧
      req td "original" = .ok ov ∧ req td "patched" = .ok pv ∧
      toggle_legacy_axis_field st.axes idx (pyStr fv) ov pv
        (normalize_axis_name (lookupA td "axis_name")) = .error e) := by
  simp only [processToggle] at h
  split at h
  · simp only [Except.error.injEq] at h
    exact Or.inl ⟨_, h.symm⟩
  · cases hax : axis_of td with
    | error e2 =>
      simp only [hax, Except.error.injEq] at h
      subst h
      exact Or.inr (Or.inl rfl)
    | ok idx =>
      simp only [hax] at h
      cases hf : req td "field" with
      | error e2 =>
        simp only [hf, Except.error.injEq] at h
        subst h
        exact Or.inr (Or.inr (Or.inl (req_error_shape td "field" e2 hf)))
      | ok fv =>
        simp only [hf] at h
        cases ho : req td "original" with
        | error e2 =>
          simp only [ho, Except.error.injEq] at h
          subst h
          exact Or.inr (Or.inr (Or.inl (req_error_shape td "original" e2 ho)))
        | ok ov =>
          simp only [ho] at h
          cases hp : req td "patched" with
          | error e2 =>
            simp only [hp, Except.error.injEq] at h
            subst h
            exact Or.inr (Or.inr (Or.inl (req_error_shape td "patched" e2 hp)))
          | ok pv =>
            simp only [hp] at h
            cases hmut : toggle_legacy_axis_field st.axes idx (pyStr fv) ov pv
                (normalize_axis_name (lookupA td "axis_name")) with
            | error e2 =>
              simp only [hmut, Except.error.injEq] at h
              subst h
              exact Or.inr (Or.inr (Or.inr (Or.inr
                ⟨idx, fv, ov, pv, rfl, rfl, rfl, rfl, hmut⟩)))
            | ok r =>
              obtain ⟨axes2, mode, line, check⟩ := r
              simp only [hmut] at h
              cases hms : st.mode_seen with
              | none =>
                simp only [hms] at h
                exact Except.noConfusion h
              | some m =>
                simp only [hms] at h
                by_cases hmm : m = mode
                · rw [if_pos hmm] at h
                  exact Except.noConfusion h
                · rw [if_neg hmm] at h
                  simp only [Except.error.injEq] at h
                  exact Or.inr (Or.inr (Or.inr (Or.inl h.symm)))

theorem processToggle_eval (st : LoopState) (td : List (String × Value))
    (idx : ℤ) (fv ov pv : Value) (axes2 : List Axis) (mode line check : String)
    (hty : pyEq (getD td "type" .null) (.str "legacy_axis_field") = true)
    (hax : axis_of td = .ok idx)
    (hf : req td "field" = .ok fv)
    (ho : req td "original" = .ok ov)
    (hp : req td "patched" = .ok pv)
    (hmut : toggle_legacy_axis_field st.axes idx (pyStr fv) ov pv
      (normalize_axis_name (lookupA td "axis_name")) =
        .ok (axes2, mode, line, check)) :
    processToggle st (.entry td) =
      match st.mode_seen with
      | none =>
        .ok ⟨axes2, some mode, st.checks ++ [check], st.logs ++ [line]⟩
      | some m =>
        if m = mode then
          .ok ⟨axes2, some m, st.checks ++ [check], st.logs ++ [line]⟩
        else .error (.mixedModes mixedMsg) := by
  simp only [processToggle, hty, Bool.true_eq_false, if_false, hax, hf, ho,
    hp, hmut]


/-! ## Claim C1: the toggle direction resolver -/

/-- C1 counterexample: the unconditional particular
`resolve(original, original, patched) = (patched, "applied")` fails when
`original` is `nan` and `patched` is `1` (not tolerantly equal): the
resolver reports an unknown state instead, because `equal` is not
reflexive on non-finite floats. -/
theorem c1_resolver_counterexample :
    equal .nan (.int 1) = false ∧
    toggle_decision .nan .nan (.int 1) = (none, "unknown") ∧
    toggle_decision .nan .nan (.int 1) ≠ (some (.int 1), "applied") := by
  decide

/-- C1 (amended): the resolver returns `(patched, "applied")` when the
current value tolerantly equals the original, otherwise
`(original, "reverted")` when it tolerantly equals the patched value,
otherwise `(none, "unknown")`; the particular equations
`resolve(original, original, patched) = (patched, "applied")` and
`resolve(patched, original, patched) = (original, "reverted")` hold under
the additional proviso that the repeated value tolerantly equals itself,
which is true for every value except the non-finite floats. -/
theorem c1_resolver (current original patched : Value) :
    (equal current original = true →
      toggle_decision current original patched = (some patched, "applied")) ∧
    (equal current original = false → equal current patched = true →
      toggle_decision current original patched = (some original, "reverted")) ∧
    (equal current original = false → equal current patched = false →
      toggle_decision current original patched = (none, "unknown")) ∧
    (equal original original = true →
      toggle_decision original original patched = (some patched, "applied")) ∧
    (equal patched patched = true → equal original patched = false →
      toggle_decision patched original patched =
        (some original, "reverted")) := by
  refine ⟨fun h => by simp [toggle_decision, h],
    fun h1 h2 => by simp [toggle_decision, h1, h2],
    fun h1 h2 => by simp [toggle_decision, h1, h2],
    fun h => by simp [toggle_decision, h],
    fun hself hne => ?_⟩
  have hpo : equal patched original = false := by
    rw [equal_symm]
    exact hne
  simp [toggle_decision, hpo, hself]

theorem c1_resolver_witness :
    toggle_decision (.float 1) (.float 1) (.float 0) =
      (some (.float 0), "applied") ∧
    toggle_decision (.float 0) (.float 1) (.float 0) =
      (some (.float 1), "reverted") ∧
    toggle_decision (.float 5) (.float 1) (.float 0) = (none, "unknown") ∧
    toggle_decision (.int 3) (.int 3) (.str "x") =
      (some (.str "x"), "applied") ∧
    toggle_decision (.str "x") (.int 3) (.str "x") =
      (some (.int 3), "reverted") := by
  have e11 : equal (.float 1) (.float 1) = true :=
    (equal_float_iff 1 1).mpr (by norm_num [FLOAT_EPS])
  have e01 : equal (.float 0) (.float 1) = false :=
    equal_eq_false _ _ (fun hc =>
      by have := (equal_float_iff 0 1).mp hc; norm_num [FLOAT_EPS] at this)
  have e00 : equal (.float 0) (.float 0) = true :=
    (equal_float_iff 0 0).mpr (by norm_num [FLOAT_EPS])
  have e51 : equal (.float 5) (.float 1) = false :=
    equal_eq_false _ _ (fun hc =>
      by have := (equal_float_iff 5 1).mp hc; norm_num [FLOAT_EPS] at this)
  have e50 : equal (.float 5) (.float 0) = false :=
    equal_eq_false _ _ (fun hc =>
      by have := (equal_float_iff 5 0).mp hc; norm_num [FLOAT_EPS] at this)
  have e33 : equal (.int 3) (.int 3) = true :=
    (equal_int_iff 3 3).mpr (by norm_num [FLOAT_EPS])
  refine ⟨(c1_resolver (.float 1) (.float 1) (.float 0)).1 e11,
    (c1_resolver (.float 0) (.float 1) (.float 0)).2.1 e01 e00,
    (c1_resolver (.float 5) (.float 1) (.float 0)).2.2.1 e51 e50,
    (c1_resolver (.int 3) (.int 3) (.str "x")).2.2.2.1 e33,
    (c1_resolver (.str "x") (.int 3) (.str "x")).2.2.2.2 (by decide)
      (by decide)⟩

/-! ## Claim C2: the tolerant equality comparator -/

/-- C2 counterexample: `True` and `1` are not both numeric non-boolean
values (a boolean is excluded from the numeric branch), yet
`equal(True, 1)` is true through the Python `==` fallback even though the
two values are not exactly equal. -/
theorem c2_comparator_counterexample :
    (isNumeric (.bool true) && isNumeric (.int 1)) = false ∧
    equal (.bool true) (.int 1) = true ∧
    Value.bool true ≠ Value.int 1 := by
  decide

/-- C2 (amended): for numeric non-boolean pairs `equal` is true exactly
when both values are finite and within epsilon; any other pair falls back
to Python `==`, which coincides with exact equality except on
boolean-number mixes, where the boolean compares as its numeric value 0
or 1. -/
theorem c2_comparator (a b : Value) :
    ((isNumeric a && isNumeric b) = true →
      (equal a b = true ↔
        (isFiniteNum a = true ∧ isFiniteNum b = true ∧
          |ratOf a - ratOf b| ≤ FLOAT_EPS))) ∧
    ((isNumeric a && isNumeric b) = false → boolNumMix a b = false →
      (equal a b = true ↔ a = b)) ∧
    (boolNumMix a b = true →
      (equal a b = true ↔ pyNum a = pyNum b)) := by
  refine ⟨fun h => ?_, fun h hmix => ?_, fun hmix => ?_⟩
  · simp [equal, h, and_assoc]
  · rcases a with n|q|_|_|_|ba|s|_ <;> rcases b with m|r|_|_|_|bb|t|_ <;>
      first
        | (cases ba <;> cases bb <;>
            simp_all [equal, pyEq, pyNum, isNumeric, isFiniteNum, boolNumMix])
        | simp_all [equal, pyEq, pyNum, isNumeric, isFiniteNum, boolNumMix]
  · rcases a with n|q|_|_|_|ba|s|_ <;> rcases b with m|r|_|_|_|bb|t|_ <;>
      simp_all [equal, pyEq, pyNum, isNumeric, boolNumMix]

theorem c2_comparator_witness :
    equal (.float 1) (.float (1 + 1 / 2000000)) = true ∧
    equal (.str "Horizontal") (.str "Horizontal") = true ∧
    equal (.bool true) (.float 1) = true := by
  refine ⟨((c2_comparator (.float 1) (.float (1 + 1 / 2000000))).1
      (by decide)).mpr ⟨rfl, rfl, by
        simp only [ratOf, FLOAT_EPS]
        rw [show (1 : ℚ) - (1 + 1 / 2000000) = -(1 / 2000000) by ring,
          abs_neg, abs_of_nonneg (by norm_num : (0 : ℚ) ≤ 1 / 2000000)]
        norm_num⟩,
    ((c2_comparator (.str "Horizontal") (.str "Horizontal")).2.1
      (by decide) (by decide)).mpr rfl,
    ((c2_comparator (.bool true) (.float 1)).2.2 (by decide)).mpr
      (by decide)⟩


/-! ## Claim C4: apply-then-revert round trip -/

/-- C5: an index outside `[0, len(collection))` (negative, or at least the
length) makes the field mutator fail with the out-of-range index error,
and the collection is not mutated: no clamping occurs. -/
theorem c5_index_out_of_range (axes : List Axis) (i : ℤ) (field : String)
    (original patched : Value) (axis_name : Option String)
    (h : i < 0 ∨ (axes.length : ℤ) ≤ i) :
    toggle_legacy_axis_field axes i field original patched axis_name =
      .error (.indexError ("Axis index out of range: " ++ toString i ++
        " (axes=" ++ toString axes.length ++ ")")) ∧
    mutatedAxes axes i field original patched axis_name = axes := by
  have he : toggle_legacy_axis_field axes i field original patched axis_name =
      .error (.indexError ("Axis index out of range: " ++ toString i ++
        " (axes=" ++ toString axes.length ++ ")")) := by
    unfold toggle_legacy_axis_field
    rw [if_pos h]
  refine ⟨he, ?_⟩
  unfold mutatedAxes
  rw [he]

theorem c5_index_out_of_range_witness :
    (toggle_legacy_axis_field [[("f", Value.int 1)]] 1 "f" (Value.int 1)
        (Value.int 0) none =
      .error (.indexError ("Axis index out of range: " ++ toString (1 : ℤ) ++
        " (axes=" ++ toString (1 : ℕ) ++ ")")) ∧
      mutatedAxes [[("f", Value.int 1)]] 1 "f" (Value.int 1) (Value.int 0)
        none = [[("f", Value.int 1)]]) ∧
    (toggle_legacy_axis_field [[("f", Value.int 1)]] (-1) "f" (Value.int 1)
        (Value.int 0) none =
      .error (.indexError ("Axis index out of range: " ++ toString (-1 : ℤ) ++
        " (axes=" ++ toString (1 : ℕ) ++ ")")) ∧
      mutatedAxes [[("f", Value.int 1)]] (-1) "f" (Value.int 1) (Value.int 0)
        none = [[("f", Value.int 1)]]) := by
  exact ⟨c5_index_out_of_range [[("f", Value.int 1)]] 1 "f" (Value.int 1)
      (Value.int 0) none (by decide),
    c5_index_out_of_range [[("f", Value.int 1)]] (-1) "f" (Value.int 1)
      (Value.int 0) none (by decide)⟩

/-! ## Claim C6: axis-name corroboration -/

/-- C6 counterexample: an expected axis name is supplied (`some ""`, not
`none`) and differs from the live name `"H"`, yet the mutator performs the
toggle instead of failing: the truthiness test `if axis_name:` treats a
supplied empty string as absent, so the check is skipped. -/
theorem c6_name_check_counterexample :
    (some "" ≠ (none : Option String)) ∧
    pyEq (.str "H") (.str "") = false ∧
    toggle_legacy_axis_field [[("m_Name", .str "H"), ("f", .str "on")]] 0 "f"
        (.str "on") (.str "off") (some "") =
      .ok ([[("m_Name", .str "H"), ("f", .str "off")]], "applied",
        "axis[0] \x27H\x27.f: \x27on\x27 -> \x27off\x27", "axis_name_skipped") := by
  refine ⟨by decide, by decide, ?_⟩
  rfl

/-- C6 (amended): whenever the supplied expected axis name is non-empty
(a supplied empty string is treated as absent by the truthiness test) and
differs from the live name attribute of the indexed element, the mutator
fails
with the integrity (name mismatch) error before the field is mutated, and
the collection is unchanged. -/
theorem c6_name_mismatch_fails (axes : List Axis) (i : ℤ) (field : String)
    (original patched : Value) (s : String) (ax : Axis)
    (hs : s ≠ "")
    (hguard : ¬ (i < 0 ∨ (axes.length : ℤ) ≤ i))
    (hax : axes.get? i.toNat = some ax)
    (hname : pyEq (getD ax "m_Name" (.str "")) (.str s) = false) :
    toggle_legacy_axis_field axes i field original patched (some s) =
      .error (.nameMismatch ("Axis name mismatch at index " ++ toString i ++
        ": expected " ++ pyRepr (.str s) ++ ", found " ++
        pyRepr (getD ax "m_Name" (.str "")))) ∧
    mutatedAxes axes i field original patched (some s) = axes := by
  have he : toggle_legacy_axis_field axes i field original patched (some s) =
      .error (.nameMismatch ("Axis name mismatch at index " ++ toString i ++
        ": expected " ++ pyRepr (.str s) ++ ", found " ++
        pyRepr (getD ax "m_Name" (.str "")))) := by
    simp only [toggle_legacy_axis_field]
    rw [if_neg hguard]
    simp only [hax, Option.getD_some]
    rw [if_pos ⟨by simp [truthy, hs], hname⟩]
  refine ⟨he, ?_⟩
  unfold mutatedAxes
  rw [he]

theorem c6_name_mismatch_fails_witness :
    toggle_legacy_axis_field [[("m_Name", Value.str "H"), ("f", Value.int 1)]]
        0 "f" (Value.int 1) (Value.int 0) (some "Vertical") =
      .error (.nameMismatch ("Axis name mismatch at index " ++
        toString (0 : ℤ) ++ ": expected " ++ pyRepr (.str "Vertical") ++
        ", found " ++ pyRepr (.str "H"))) ∧
    mutatedAxes [[("m_Name", Value.str "H"), ("f", Value.int 1)]] 0 "f"
        (Value.int 1) (Value.int 0) (some "Vertical") =
      [[("m_Name", Value.str "H"), ("f", Value.int 1)]] := by
  exact c6_name_mismatch_fails
    [[("m_Name", Value.str "H"), ("f", Value.int 1)]] 0 "f" (Value.int 1)
    (Value.int 0) "Vertical" [("m_Name", Value.str "H"), ("f", Value.int 1)]
    (by decide) (by decide) rfl (by decide)


/-! ## Claim C9: frame condition of the field mutator -/

/-- C10: when a toggle entry carries an axis_name value that is the empty
string, a whitespace-only string, or a non-string value, the loop body
treats the corroboration as absent: the mutator receives no expected
name, an entry that succeeds reports the check "axis_name_skipped", and
the entry is never rejected with a name-mismatch error. -/
theorem c10_axis_name_skip (st : LoopState) (td : List (String × Value))
    (v : Value)
    (hv : lookupA td "axis_name" = some v)
    (hskip : ∀ s, v = .str s → pyStrip s = "") :
    normalize_axis_name (lookupA td "axis_name") = none ∧
    (∀ st2, processToggle st (.entry td) = .ok st2 →
      st2.checks = st.checks ++ ["axis_name_skipped"]) ∧
    (∀ m, processToggle st (.entry td) ≠ .error (.nameMismatch m)) := by
  have hnorm : normalize_axis_name (lookupA td "axis_name") = none := by
    rw [hv]
    cases v
    case str s => simp [normalize_axis_name, hskip s rfl]
    all_goals rfl
  refine ⟨hnorm, ?_, ?_⟩
  · intro st2 h
    obtain ⟨idx, fv, ov, pv, axes2, mode, line, check, hty, hax, hf, ho, hp,
      hmut, hst2, hms⟩ := processToggle_entry_ok st td st2 h
    rw [hnorm] at hmut
    obtain ⟨ax, nw, hax2, haxes2, hcheck⟩ :=
      mutator_ok_inv st.axes idx (pyStr fv) ov pv none axes2 mode line check
        hmut
    rw [hst2]
    simp [hcheck, mkCheck, truthy]
  · intro m h
    rcases processToggle_entry_error st td _ h with
      ⟨m2, hm⟩ | hm | ⟨m2, hm⟩ | hm |
      ⟨idx, fv, ov, pv, hax, hf, ho, hp, hmut⟩
    · exact PatchError.noConfusion hm
    · rcases axis_of_error_shape td _ hm with ⟨m2, hm2⟩
      exact PatchError.noConfusion hm2
    · exact PatchError.noConfusion hm
    · exact PatchError.noConfusion hm
    · rw [hnorm] at hmut
      exact absurd rfl
        (mutator_none_no_mismatch st.axes idx (pyStr fv) ov pv _ hmut m)

theorem c10_axis_name_skip_witness :
    normalize_axis_name (lookupA [("type", Value.str "legacy_axis_field"),
      ("axis", Value.int 0), ("field", Value.str "f"),
      ("original", Value.str "on"), ("patched", Value.str "off"),
      ("axis_name", Value.str "  ")] "axis_name") = none ∧
    (LoopState.mk [[("m_Name", Value.str "H"), ("f", Value.str "off")]]
      (some "applied") ["axis_name_skipped"]
      ["axis[0] \x27H\x27.f: \x27on\x27 -> \x27off\x27"]).checks =
      ([] : List String) ++ ["axis_name_skipped"] ∧
    processToggle
      ⟨[[("m_Name", Value.str "H"), ("f", Value.str "on")]], none, [], []⟩
      (.entry [("type", Value.str "legacy_axis_field"),
        ("axis", Value.int 0), ("field", Value.str "f"),
        ("original", Value.str "on"), ("patched", Value.str "off"),
        ("axis_name", Value.str "  ")]) ≠
      .error (.nameMismatch "boom") := by
  have h := c10_axis_name_skip
    ⟨[[("m_Name", Value.str "H"), ("f", Value.str "on")]], none, [], []⟩
    [("type", Value.str "legacy_axis_field"), ("axis", Value.int 0),
     ("field", Value.str "f"), ("original", Value.str "on"),
     ("patched", Value.str "off"), ("axis_name", Value.str "  ")]
    (Value.str "  ") rfl
    (fun s hs => by cases hs; rfl)
  refine ⟨h.1, h.2.1 _ ?hpt, h.2.2 "boom"⟩
  case hpt => rfl


/-! ## Claim C3: mixed apply/revert directions abort the run -/

theorem runToggles_append (st : LoopState) (pre rest : List TEntry)
    (stp : LoopState) (h : runToggles st pre = .ok stp) :
    runToggles st (pre ++ rest) = runToggles stp rest := by
  induction pre generalizing st with
  | nil =>
    simp only [runToggles, Except.ok.injEq] at h
    rw [List.nil_append, h]
  | cons t ts ih =>
    simp only [List.cons_append, runToggles] at h ⊢
    cases hp : processToggle st t with
    | error e =>
      rw [hp] at h
      exact Except.noConfusion h
    | ok st2 =>
      simp only [hp] at h ⊢
      exact ih st2 h

/-- C3: in any run whose toggle entries do not all resolve to the same
direction, the whole run fails with the mixed apply/revert error and
nothing is written to the target file.  The disagreement is located at
its first occurrence: the entries of the prefix `pre` all succeed and
unanimously resolve mode `m` (held in `mode_seen`), and the next entry
`t` resolves a different mode `m2` against the axes state the loop has
reached — the positions and the two directions are arbitrary.
Serialisation happens only after the loop has succeeded, so the error
leaves the file unwritten. -/
theorem c3_mixed_direction_aborts (w : World) (game_root : List String)
    (patch : Patch) (root : List String) (rel : String)
    (pre : List TEntry) (t : TEntry) (ts : List TEntry) (im : UObj)
    (axes0 : List Axis) (stp stt : LoopState) (m m2 : String)
    (hroot : resolve_game_root w.ex game_root patch.root_contains = .ok root)
    (hrel : patch_rel patch = .ok rel)
    (hfile : target_file w root rel = .ok ())
    (htog : patch_toggles patch = .ok (pre ++ t :: ts))
    (him : find_obj (w.load root rel) "InputManager" = .ok im)
    (haxes : get_axes im = .ok axes0)
    (hpre : runToggles ⟨axes0, none, [], []⟩ pre = .ok stp)
    (hm : stp.mode_seen = some m)
    (ht : processToggle ⟨stp.axes, none, [], []⟩ t = .ok stt)
    (hm2 : stt.mode_seen = some m2)
    (hne : m ≠ m2) :
    run w game_root patch = .error (.mixedModes mixedMsg) ∧
    written_tree (run w game_root patch) = none := by
  cases t with
  | notDict v => simp [processToggle] at ht
  | entry td =>
    obtain ⟨idx, fv, ov, pv, axes2, mode, line, check, hty, hax, hf, ho, hp2,
      hmut, hstt, hms⟩ := processToggle_entry_ok _ td stt ht
    have hmode : mode = m2 := by
      rw [hstt] at hm2
      simpa using hm2
    have heval := processToggle_eval stp td idx fv ov pv axes2 mode line
      check hty hax hf ho hp2 hmut
    simp only [hm] at heval
    rw [if_neg (by rw [hmode]; exact hne)] at heval
    have hloop : runToggles ⟨axes0, none, [], []⟩
        (pre ++ TEntry.entry td :: ts) =
        .error (.mixedModes mixedMsg) := by
      rw [runToggles_append ⟨axes0, none, [], []⟩ pre _ stp hpre]
      simp only [runToggles, heval]
    have hrunEq : run w game_root patch =
        .error (.mixedModes mixedMsg) := by
      simp only [run, hroot, hrel, hfile, htog, him, haxes, hloop]
    exact ⟨hrunEq, by simp only [written_tree, hrunEq]⟩

theorem c3_mixed_direction_aborts_witness :
    run threeAxisWorld [] mixedPatch = .error (.mixedModes mixedMsg) ∧
    written_tree (run threeAxisWorld [] mixedPatch) = none := by
  exact c3_mixed_direction_aborts threeAxisWorld [] mixedPatch [] "level0"
    [.entry [("type", Value.str "legacy_axis_field"), ("axis", Value.int 0),
       ("field", Value.str "a"), ("original", Value.str "on"),
       ("patched", Value.str "off")],
     .entry [("type", Value.str "legacy_axis_field"), ("axis", Value.int 1),
       ("field", Value.str "b"), ("original", Value.str "down"),
       ("patched", Value.str "up")]]
    (.entry [("type", Value.str "legacy_axis_field"), ("axis", Value.int 2),
      ("field", Value.str "c"), ("original", Value.str "on"),
      ("patched", Value.str "off")])
    []
    { typeName := "InputManager",
      mAxes := .axes [[("a", Value.str "off")], [("b", Value.str "up")],
        [("c", Value.str "on")]],
      restTree := [] }
    [[("a", Value.str "off")], [("b", Value.str "up")],
     [("c", Value.str "on")]]
    ⟨[[("a", Value.str "on")], [("b", Value.str "down")],
       [("c", Value.str "on")]], some "reverted",
      ["axis_name_skipped", "axis_name_skipped"],
      ["axis[0] \x27\x27.a: \x27off\x27 -> \x27on\x27",
       "axis[1] \x27\x27.b: \x27up\x27 -> \x27down\x27"]⟩
    ⟨[[("a", Value.str "on")], [("b", Value.str "down")],
       [("c", Value.str "off")]], some "applied", ["axis_name_skipped"],
      ["axis[2] \x27\x27.c: \x27on\x27 -> \x27off\x27"]⟩
    "reverted" "applied"
    rfl rfl rfl rfl rfl rfl rfl rfl rfl rfl (by decide)

/-! ## Claim C7: root_contains fallback to the parent directory -/

/-- C7: with a non-empty root_contains list, a failing check at the given
root is retried exactly once against the strict parent: on success the
parent is adopted as the root; when the root is its own parent the
original failure propagates, and when the parent also fails that second
failure propagates; in both failing cases the whole run aborts with the
propagated error. -/
theorem c7_root_fallback (ex : List String → String → Bool)
    (root : List String) (xs : List Value) (e : PatchError)
    (hxs : xs ≠ [])
    (hfail : verify_root_contains ex root (xs.map pyStr) = .error e) :
    (root.dropLast ≠ root →
      (verify_root_contains ex root.dropLast (xs.map pyStr) = .ok () →
        resolve_game_root ex root (.items xs) = .ok root.dropLast) ∧
      (∀ e2, verify_root_contains ex root.dropLast (xs.map pyStr) =
          .error e2 →
        resolve_game_root ex root (.items xs) = .error e2 ∧
        ∀ w patch, w.ex = ex → patch.root_contains = .items xs →
          run w root patch = .error e2)) ∧
    (root.dropLast = root →
      resolve_game_root ex root (.items xs) = .error e ∧
      ∀ w patch, w.ex = ex → patch.root_contains = .items xs →
        run w root patch = .error e) := by
  have hne : xs.isEmpty = false := by
    cases xs
    · exact absurd rfl hxs
    · rfl
  have hbase : resolve_game_root ex root (.items xs) =
      (if root.dropLast ≠ root then
        match verify_root_contains ex root.dropLast (xs.map pyStr) with
        | .ok _ => .ok root.dropLast
        | .error e2 => .error e2
      else .error e) := by
    simp only [resolve_game_root, hne, Bool.false_eq_true, if_false, hfail]
  constructor
  · intro hpar
    constructor
    · intro hok
      rw [hbase, if_pos hpar]
      simp only [hok]
    · intro e2 he2
      have hres : resolve_game_root ex root (.items xs) = .error e2 := by
        rw [hbase, if_pos hpar]
        simp only [he2]
      refine ⟨hres, ?_⟩
      intro w patch hw hp
      simp only [run, hp, hw, hres]
  · intro hpar
    have hres : resolve_game_root ex root (.items xs) = .error e := by
      rw [hbase, if_neg (fun hh => hh hpar)]
    refine ⟨hres, ?_⟩
    intro w patch hw hp
    simp only [run, hp, hw, hres]

theorem c7_root_fallback_witness :
    resolve_game_root (fun d _ => decide (d = ["game"])) ["game", "sub"]
      (.items [Value.str "Foo.exe"]) = .ok ["game"] ∧
    resolve_game_root (fun _ _ => false) ["r"]
      (.items [Value.str "Foo.exe"]) =
      .error (.rootCheckFailed
        "Root sanity check failed at \x22/\x22 (missing: Foo.exe)") ∧
    run ⟨fun _ _ => false, fun _ _ => true, fun _ _ => []⟩ ["r"]
      ⟨.items [Value.str "Foo.exe"], none, .absent⟩ =
      .error (.rootCheckFailed
        "Root sanity check failed at \x22/\x22 (missing: Foo.exe)") ∧
    resolve_game_root (fun _ _ => false) []
      (.items [Value.str "Foo.exe"]) =
      .error (.rootCheckFailed
        "Root sanity check failed at \x22/\x22 (missing: Foo.exe)") ∧
    run ⟨fun _ _ => false, fun _ _ => true, fun _ _ => []⟩ []
      ⟨.items [Value.str "Foo.exe"], none, .absent⟩ =
      .error (.rootCheckFailed
        "Root sanity check failed at \x22/\x22 (missing: Foo.exe)") := by
  have hA := c7_root_fallback (fun d _ => decide (d = ["game"]))
    ["game", "sub"] [Value.str "Foo.exe"]
    (.rootCheckFailed
      "Root sanity check failed at \x22/game/sub\x22 (missing: Foo.exe)")
    (by decide) rfl
  have hB := c7_root_fallback (fun _ _ => false) ["r"] [Value.str "Foo.exe"]
    (.rootCheckFailed "Root sanity check failed at \x22/r\x22 (missing: Foo.exe)")
    (by decide) rfl
  have hC := c7_root_fallback (fun _ _ => false) [] [Value.str "Foo.exe"]
    (.rootCheckFailed "Root sanity check failed at \x22/\x22 (missing: Foo.exe)")
    (by decide) rfl
  have hB2 := (hB.1 (by decide)).2
    (.rootCheckFailed "Root sanity check failed at \x22/\x22 (missing: Foo.exe)")
    rfl
  have hC2 := hC.2 rfl
  exact ⟨(hA.1 (by decide)).1 rfl, hB2.1,
    hB2.2 ⟨fun _ _ => false, fun _ _ => true, fun _ _ => []⟩
      ⟨.items [Value.str "Foo.exe"], none, .absent⟩ rfl rfl,
    hC2.1,
    hC2.2 ⟨fun _ _ => false, fun _ _ => true, fun _ _ => []⟩
      ⟨.items [Value.str "Foo.exe"], none, .absent⟩ rfl rfl⟩

/-! ## Claim C8: axis index coercion in the orchestrator -/

/-- C8 counterexample: a toggle entry whose axis value is the string "0"
is not an integer, yet the run does not fail with the non-integer-axis
error: Python int() coerces the string and the run succeeds using the
coerced index 0. -/
theorem c8_axis_counterexample :
    strAxisPatch.toggle = .entries [.entry [("type", .str "legacy_axis_field"),
      ("axis", .str "0"), ("field", .str "f"), ("original", .str "on"),
      ("patched", .str "off")]] ∧
    lookupA [("type", Value.str "legacy_axis_field"),
      ("axis", Value.str "0"), ("field", Value.str "f"),
      ("original", Value.str "on"), ("patched", Value.str "off")] "axis" =
      some (Value.str "0") ∧
    isIntValue (Value.str "0") = false ∧
    run oneAxisWorld [] strAxisPatch =
      .ok { root := [], rel := "level0",
            finalAxes := [[("m_Name", Value.str "H"),
              ("f", Value.str "off")]],
            restTree := [], mode_seen := some "applied",
            checks := ["axis_name_skipped"],
            logs := ["axis[0] \x27H\x27.f: \x27on\x27 -> \x27off\x27"] } := by
  exact ⟨rfl, rfl, rfl, rfl⟩

/-- C8 (amended): the loop body fails with the non-integer-axis error
exactly when the axis key is missing or the int() coercion raises (None,
non-finite floats, non-numeric strings); booleans, floats (truncated
toward zero) and numeric strings coerce successfully and the entry
proceeds with the coerced index, never raising the non-integer-axis
error. -/
theorem c8_axis_coercion (st : LoopState) (td : List (String × Value))
    (hty : pyEq (getD td "type" .null) (.str "legacy_axis_field") = true) :
    (lookupA td "axis" = none →
      ∃ m, processToggle st (.entry td) = .error (.nonIntegerAxis m)) ∧
    (∀ v, lookupA td "axis" = some v → pyInt v = .error () →
      ∃ m, processToggle st (.entry td) = .error (.nonIntegerAxis m)) ∧
    (∀ v n, lookupA td "axis" = some v → pyInt v = .ok n →
      ∀ m, processToggle st (.entry td) ≠ .error (.nonIntegerAxis m)) := by
  have htyne : ¬ (pyEq (getD td "type" Value.null)
      (Value.str "legacy_axis_field") = false) := by
    rw [hty]
    exact fun hh => Bool.noConfusion hh
  refine ⟨fun hv => ?_, fun v hv hint => ?_, fun v n hv hint m h => ?_⟩
  · refine ⟨"Toggle entry has non-integer " ++ pyRepr (.str "axis") ++
      ": " ++ pyRepr .null, ?_⟩
    simp only [processToggle, if_neg htyne, axis_of, hv]
  · refine ⟨"Toggle entry has non-integer " ++ pyRepr (.str "axis") ++
      ": " ++ pyRepr v, ?_⟩
    simp only [processToggle, if_neg htyne, axis_of, hv, hint]
  · have haxv : axis_of td = .ok n := by
      simp only [axis_of, hv, hint]
    rcases processToggle_entry_error st td _ h with
      ⟨m2, hm⟩ | hm | ⟨m2, hm⟩ | hm |
      ⟨idx, fv, ov, pv, hax, hf, ho, hp, hmut⟩
    · exact PatchError.noConfusion hm
    · rw [haxv] at hm
      exact Except.noConfusion hm
    · exact PatchError.noConfusion hm
    · exact PatchError.noConfusion hm
    · rcases mutator_error_shape st.axes idx (pyStr fv) ov pv
        (normalize_axis_name (lookupA td "axis_name")) _ hmut with
        ⟨m2, hm⟩ | ⟨m2, hm⟩ | ⟨m2, hm⟩ | ⟨m2, hm⟩ <;>
      exact PatchError.noConfusion hm

theorem c8_axis_coercion_witness :
    (∃ m, processToggle ⟨[], none, [], []⟩
      (.entry [("type", Value.str "legacy_axis_field")]) =
      .error (.nonIntegerAxis m)) ∧
    (∃ m, processToggle ⟨[], none, [], []⟩
      (.entry [("type", Value.str "legacy_axis_field"),
        ("axis", Value.null)]) = .error (.nonIntegerAxis m)) ∧
    processToggle ⟨[[("m_Name", Value.str "H"), ("f", Value.str "on")]],
        none, [], []⟩
      (.entry [("type", Value.str "legacy_axis_field"),
        ("axis", Value.str "0"), ("field", Value.str "f"),
        ("original", Value.str "on"), ("patched", Value.str "off")]) ≠
      .error (.nonIntegerAxis "boom") := by
  refine ⟨(c8_axis_coercion ⟨[], none, [], []⟩
      [("type", Value.str "legacy_axis_field")] (by decide)).1 rfl,
    (c8_axis_coercion ⟨[], none, [], []⟩
      [("type", Value.str "legacy_axis_field"), ("axis", Value.null)]
      (by decide)).2.1 Value.null rfl rfl,
    (c8_axis_coercion ⟨[[("m_Name", Value.str "H"),
        ("f", Value.str "on")]], none, [], []⟩
      [("type", Value.str "legacy_axis_field"), ("axis", Value.str "0"),
       ("field", Value.str "f"), ("original", Value.str "on"),
       ("patched", Value.str "off")] (by decide)).2.2 (Value.str "0") 0
      rfl rfl "boom"⟩

end UnityInputPatcher

